import Mathlib

/-
Shallow embedding of the Angular project generator
(createproj.ts and the reactive-forms variant in src/unnamed/part_001).
All string templates are transcribed verbatim from the source; literal
braces and apostrophes inside generated text are written with \x7b, \x7d
and \x27 escapes.  JavaScript truthiness of optional attributes is made
explicit through the helpers boolTruthy, numTruthy, strTruthy, jsOrElse.
-/

set_option maxRecDepth 10000

namespace Gen

/-- Structured validation bundle of a field (src/unnamed/part_001, lines 10-17). -/
structure Validations where
  required : Option Bool := none
  minLength : Option Int := none
  maxLength : Option Int := none
  regex : Option String := none
  range : Option (Int × Int) := none
  defaultValue : Option String := none
deriving DecidableEq

/-- A field of a component: the flat attributes of createproj.ts (lines 13-20)
together with the structured bundle consumed by the reactive-forms variant. -/
structure Field where
  name : String
  type : String
  required : Bool := false
  regex : Option String := none
  options : List String := []
  validationMessage : Option String := none
  validations : Option Validations := none
deriving DecidableEq

/-- A component of the specification (createproj.ts lines 11-22,
src/unnamed/part_001 lines 20-24). -/
structure Component where
  name : String
  menuName : Option String := none
  fields : List Field := []
  buttons : List String := []
deriving DecidableEq

/-- The root specification document (createproj.ts lines 9-25). -/
structure OpenAPISpecification where
  projectName : String
  components : List Component
  menuType : String := "horizontal"
  footerContent : Option String := none
deriving DecidableEq

/-- JS truthiness of an optional boolean attribute (undefined and false are falsy). -/
def boolTruthy : Option Bool → Bool
  | none => false
  | some b => b

/-- JS truthiness of an optional numeric attribute (undefined and 0 are falsy). -/
def numTruthy : Option Int → Bool
  | none => false
  | some n => !(n == 0)

/-- JS truthiness of an optional string attribute (undefined and the empty string are falsy). -/
def strTruthy : Option String → Bool
  | none => false
  | some s => !(s == "")

/-- JS short-circuit `a || b` for an optional string `a` and a string default `b`. -/
def jsOrElse : Option String → String → String
  | none, b => b
  | some s, b => if s == "" then b else s

/-- JS String.toLowerCase: every character lowercased. -/
def jsToLowerCase (s : String) : String :=
  ⟨s.data.map Char.toLower⟩

/-- JS String.split(a single space): accumulate the current word, emit it at
each space; the empty string splits to one empty word. -/
def splitSpaceAux (acc : List Char) : List Char → List (List Char)
  | [] => [acc.reverse]
  | c :: rest =>
    if c == ' ' then acc.reverse :: splitSpaceAux [] rest
    else splitSpaceAux (c :: acc) rest

/-- One word of toTitleCase: first character uppercased, remainder lowercased. -/
def titleWord : List Char → List Char
  | [] => []
  | c :: rest => Char.toUpper c :: rest.map Char.toLower

/-- toTitleCase (createproj.ts lines 659-664): split on a single space,
capitalize the first character of each word, lowercase the rest, re-join. -/
def toTitleCase (text : String) : String :=
  ⟨List.intercalate ([' ']) ((splitSpaceAux [] text.data).map titleWord)⟩

/-- capitalize (src/unnamed/part_001, lines 165-167): first character
uppercased, remainder unchanged. -/
def capitalize (str : String) : String :=
  match str.data with
  | [] => ""
  | c :: rest => ⟨Char.toUpper c :: rest⟩

/-- A compiled validation directive (derived entity; one Validators.* call). -/
inductive Directive where
  | required : Directive
  | minLength : Int → Directive
  | maxLength : Int → Directive
  | pattern : String → Directive
  | min : Int → Directive
  | max : Int → Directive
deriving DecidableEq

/-- Validator chain compiled from a field's structured bundle, mirroring the
body of generateValidationRules (src/unnamed/part_001, lines 128-133): each
`if (field.validations?.x)` test is JS truthiness; the range entry pushes
Validators.min then Validators.max.  A JS array is always truthy, so a
present range always contributes both directives. -/
def compileValidations (vo : Option Validations) : List Directive :=
  (if boolTruthy (vo.bind Validations.required) then [Directive.required] else []) ++
  (if numTruthy (vo.bind Validations.minLength) then
    [Directive.minLength ((vo.bind Validations.minLength).getD 0)] else []) ++
  (if numTruthy (vo.bind Validations.maxLength) then
    [Directive.maxLength ((vo.bind Validations.maxLength).getD 0)] else []) ++
  (if strTruthy (vo.bind Validations.regex) then
    [Directive.pattern ((vo.bind Validations.regex).getD (""))] else []) ++
  (match vo.bind Validations.range with
    | some (a, b) => [Directive.min a, Directive.max b]
    | none => [])

/-- Printed form of one directive, as pushed by generateValidationRules. -/
def directiveStr : Directive → String
  | Directive.required => "Validators.required"
  | Directive.minLength n => "Validators.minLength(" ++ toString n ++ ")"
  | Directive.maxLength n => "Validators.maxLength(" ++ toString n ++ ")"
  | Directive.pattern r => "Validators.pattern(/" ++ r ++ "/)"
  | Directive.min n => "Validators.min(" ++ toString n ++ ")"
  | Directive.max n => "Validators.max(" ++ toString n ++ ")"

/-- generateValidationRules (src/unnamed/part_001, lines 125-137): one
`name: [null, [validators]]` entry per field, in declaration order,
joined with a comma. -/
def generateValidationRules (c : Component) : String :=
  String.intercalate (", ") (c.fields.map (fun field =>
    field.name ++ ": [null, [" ++
    String.intercalate (", ") ((compileValidations field.validations).map directiveStr) ++
    "]]"))

/-- Structured view of the generated form model: one (control name,
validator chain) pair per field of the component, in declaration order. -/
def formControls (c : Component) : List (String × List Directive) :=
  c.fields.map (fun f => (f.name, compileValidations f.validations))

/-- Printed form of one form-model control entry (the control is seeded with null). -/
def controlEntryStr (p : String × List Directive) : String :=
  p.1 ++ ": [null, [" ++ String.intercalate (", ") (p.2.map directiveStr) ++ "]]"

/-- The constructor statement installing the form model
(src/unnamed/part_001, line 96). -/
def formGroupStmt (c : Component) : String :=
  "this.form = this.fb.group(\x7b " ++ generateValidationRules c ++ " \x7d);"

/-- One entry of the generated routing table (derived entity): a path paired
with either a component identifier or a redirect target. -/
structure RouteEntry where
  path : String
  component : Option String := none
  redirectTo : Option String := none
  pathMatchFull : Bool := false
deriving DecidableEq

/-- Structured view of the route array built by generateAppRoutingModuleContent
(createproj.ts lines 109-126): one entry per component in input order with
`path = name.toLowerCase()` and `component = name + "Component"` (the raw
name, as interpolated on line 112), then the empty-path and wildcard entries
both redirecting to `/` + the lowercased first name.  `components[0]` is
dereferenced unconditionally, so the empty list throws (modelled as none). -/
def routeEntries : List Component → Option (List RouteEntry)
  | [] => none
  | c0 :: rest =>
    some (((c0 :: rest).map (fun c =>
      { path := jsToLowerCase c.name, component := some (c.name ++ "Component") } )) ++
      [ { path := "", redirectTo := some ("/" ++ jsToLowerCase c0.name), pathMatchFull := true },
        { path := "**", redirectTo := some ("/" ++ jsToLowerCase c0.name) } ])

/-- One component route line of the routing module (createproj.ts line 112). -/
def routeStr (c : Component) : String :=
  "\x7b path: \x27" ++ jsToLowerCase c.name ++ "\x27, component: " ++ c.name ++ "Component \x7d"

/-- One import line of the routing module (createproj.ts line 105). -/
def importStr (c : Component) : String :=
  "import \x7b " ++ c.name ++ "Component \x7d from \x27./" ++ jsToLowerCase c.name ++
  "/" ++ jsToLowerCase c.name ++ ".component\x27;"

/-- generateAppRoutingModuleContent (createproj.ts lines 101-134); none models
the TypeError thrown by `components[0].name` on an empty component list. -/
def generateAppRoutingModuleContent : List Component → Option String
  | [] => none
  | c0 :: rest =>
    let imports := String.intercalate ("\n") ((c0 :: rest).map importStr)
    let routes := String.intercalate (",\n") ((c0 :: rest).map routeStr)
    some ("\n      import \x7b NgModule \x7d from \x27@angular/core\x27;\n      import \x7b RouterModule, Routes \x7d from \x27@angular/router\x27;\n  \n      " ++
      imports ++
      "\n  \n      const routes: Routes = [\n        " ++
      routes ++
      ",\n        \x7b path: \x27\x27, redirectTo: \x27/" ++ jsToLowerCase c0.name ++
      "\x27, pathMatch: \x27full\x27 \x7d,\n        \x7b path: \x27**\x27, redirectTo: \x27/" ++
      jsToLowerCase c0.name ++
      "\x27 \x7d\n      ];\n  \n      @NgModule(\x7b\n        imports: [RouterModule.forRoot(routes)],\n        exports: [RouterModule]\n      \x7d)\n      export class AppRoutingModule \x7b \x7d\n    ")

/-- The required marker appended to a label (createproj.ts line 171):
driven solely by the flat required flag. -/
def requiredMarkerOf (f : Field) : String :=
  if f.required then " *" else ""

/-- The resolved error message (createproj.ts lines 172-173): explicit
override, else `<Label> is required`. -/
def errorMessageOf (f : Field) : String :=
  jsOrElse f.validationMessage (toTitleCase f.name ++ " is required")

/-- The `required` attribute fragment of an input (createproj.ts line 181). -/
def requiredAttrOf (f : Field) : String :=
  if f.required then "required" else ""

/-- The `pattern` attribute fragment of an input (createproj.ts line 181). -/
def patternAttrOf (f : Field) : String :=
  match f.regex with
  | some r => if r == "" then "" else "pattern=\"" ++ r ++ "\""
  | none => ""

/-- The required-error block (createproj.ts line 182). -/
def requiredErrorDiv (f : Field) : String :=
  "<div *ngIf=\"form." ++ f.name ++ ".errors?.required\" class=\"text-danger\">" ++
  errorMessageOf f ++ "</div>"

/-- The conditional pattern-error block (createproj.ts lines 183-187). -/
def patternErrorDiv (f : Field) : String :=
  match f.regex with
  | some r =>
    if r == "" then "" else
    "<div *ngIf=\"form." ++ f.name ++ ".errors?.pattern\" class=\"text-danger\">" ++
    jsOrElse f.validationMessage (f.name ++ " format is invalid") ++ "</div>"
  | none => ""

/-- textbox arm of the switch (createproj.ts lines 178-189); the default arm
(lines 255-266) repeats this template verbatim. -/
def textboxControl (f : Field) : String :=
  ("\n                <label for=\"" ++ f.name ++ "\">") ++
  (toTitleCase f.name ++ requiredMarkerOf f) ++
  ("</label>\n                <input type=\"text\" id=\"" ++ f.name ++ "\" name=\"" ++ f.name ++
   "\" class=\"form-control\" [ngModel]=\"" ++ f.name ++ "\" " ++ requiredAttrOf f ++ " " ++
   patternAttrOf f ++ "/>\n                " ++ requiredErrorDiv f ++ "\n              " ++
   patternErrorDiv f ++ "\n              ")

/-- textarea arm of the switch (createproj.ts lines 191-197). -/
def textareaControl (f : Field) : String :=
  ("\n                <label for=\"" ++ f.name ++ "\">") ++
  (toTitleCase f.name ++ requiredMarkerOf f) ++
  ("</label>\n                <textarea id=\"" ++ f.name ++ "\" name=\"" ++ f.name ++
   "\" class=\"form-control\" [ngModel]=\"" ++ f.name ++ "\" " ++ requiredAttrOf f ++
   "></textarea>\n                " ++ requiredErrorDiv f ++ "\n              ")

/-- One option line of a dropdown (createproj.ts line 204). -/
def dropdownOptionStr (option : String) : String :=
  "<option value=\"" ++ option ++ "\">" ++ option ++ "</option>"

/-- dropdown arm of the switch (createproj.ts lines 199-208). -/
def dropdownControl (f : Field) : String :=
  ("\n                <label for=\"" ++ f.name ++ "\">") ++
  (toTitleCase f.name ++ requiredMarkerOf f) ++
  ("</label>\n                <select id=\"" ++ f.name ++ "\" name=\"" ++ f.name ++
   "\" class=\"form-control\" [ngModel]=\"" ++ f.name ++ "\" " ++ requiredAttrOf f ++
   ">\n                  <option value=\"\">-- Select --</option>\n                  " ++
   String.join (f.options.map dropdownOptionStr) ++
   "\n                </select>\n                " ++ requiredErrorDiv f ++ "\n              ")

/-- checkbox arm of the switch (createproj.ts lines 210-216): the label text
follows the input and carries no required marker. -/
def checkboxControl (f : Field) : String :=
  ("\n                <label>\n                  <input type=\"checkbox\" id=\"" ++ f.name ++
   "\" name=\"" ++ f.name ++ "\" [ngModel]=\"" ++ f.name ++ "\" /> ") ++
  (toTitleCase f.name ++ ("\n                </label>\n              "))

/-- One toggle of a checkboxlist (createproj.ts lines 224-226): every toggle
shares the field's name as its name attribute. -/
def cblToggle (nm : String) (option : String) : String :=
  "<label><input type=\"checkbox\" name=\"" ++ nm ++ "\" value=\"" ++ option ++
  "\" [ngModel]=\"" ++ nm ++ "\"/> " ++ option ++ "</label>"

/-- checkboxlist arm of the switch (createproj.ts lines 218-230): one toggle
per option joined with `<br>`, and no error block at all. -/
def checkboxlistControl (f : Field) : String :=
  ("\n                <label>") ++
  (toTitleCase f.name ++ requiredMarkerOf f) ++
  (("</label>\n                <div>\n                  ") ++
   String.intercalate ("<br>") (f.options.map (cblToggle f.name)) ++
   ("\n                </div>\n              "))

/-- radiobutton arm of the switch (createproj.ts lines 232-238). -/
def radiobuttonControl (f : Field) : String :=
  ("\n                <label>\n                  <input type=\"radio\" id=\"" ++ f.name ++
   "\" name=\"" ++ f.name ++ "\" [ngModel]=\"" ++ f.name ++ "\" /> ") ++
  (toTitleCase f.name ++ ("\n                </label>\n              "))

/-- One toggle of a radiobuttonlist (createproj.ts lines 244-248). -/
def rblToggle (nm : String) (option : String) : String :=
  "<label><input type=\"radio\" name=\"" ++ nm ++ "\" value=\"" ++ option ++
  "\" [ngModel]=\"" ++ nm ++ "\" /> " ++ option ++ "</label>"

/-- radiobuttonlist arm of the switch (createproj.ts lines 240-253). -/
def radiobuttonlistControl (f : Field) : String :=
  ("\n                <label>") ++
  (toTitleCase f.name ++ requiredMarkerOf f) ++
  (("</label>\n                <div>\n                  ") ++
   String.intercalate ("<br>") (f.options.map (rblToggle f.name)) ++
   ("\n                </div>\n                " ++ requiredErrorDiv f ++ "\n              "))

/-- The dispatch on field.type (createproj.ts lines 177-267); an unrecognized
type falls through to the default arm, whose template is identical to the
textbox arm. -/
def controlHTML (f : Field) : String :=
  if f.type == "textbox" then textboxControl f
  else if f.type == "textarea" then textareaControl f
  else if f.type == "dropdown" then dropdownControl f
  else if f.type == "checkbox" then checkboxControl f
  else if f.type == "checkboxlist" then checkboxlistControl f
  else if f.type == "radiobutton" then radiobuttonControl f
  else if f.type == "radiobuttonlist" then radiobuttonlistControl f
  else textboxControl f

/-- The uniform field container (createproj.ts line 269). -/
def fieldFragment (f : Field) : String :=
  "<div class=\"form-group\">" ++ controlHTML f ++ "</div>"

/-- The layout class of the form (createproj.ts lines 273-275). -/
def layoutClassOf (useBootstrap : Bool) (columnLayout : Nat) : String :=
  if useBootstrap then "row row-cols-" ++ toString columnLayout else "custom-layout"

/-- generateComponentHTMLContent (createproj.ts lines 161-283): field
fragments joined with the empty string inside the form, followed by the
single hardcoded Submit button. -/
def generateComponentHTMLContent (c : Component) (useBootstrap : Bool) (columnLayout : Nat) : String :=
  ("\n      <form #form=\"ngForm\" (ngSubmit)=\"onSubmit(form)\" class=\"" ++
   layoutClassOf useBootstrap columnLayout ++ "\">\n        ") ++
  String.join (c.fields.map fieldFragment) ++
  ("\n        <button type=\"submit\" class=\"btn btn-primary\">Submit</button>\n      </form>\n    ")

/-- generateComponentTSContent (createproj.ts lines 136-159). -/
def generateComponentTSContent (c : Component) : String :=
  "\n      import \x7b Component, OnInit \x7d from \x27@angular/core\x27;\n  \n      @Component(\x7b\n        selector: \x27app-" ++
  jsToLowerCase c.name ++
  "\x27,\n        templateUrl: \x27./" ++ jsToLowerCase c.name ++
  ".component.html\x27,\n        styleUrls: [\x27./" ++ jsToLowerCase c.name ++
  ".component.css\x27]\n      \x7d)\n      export class " ++ c.name ++
  "Component implements OnInit \x7b\n        constructor() \x7b \x7d\n  \n        ngOnInit(): void \x7b \x7d\n  \n        onSubmit(form: any): void \x7b\n          if (form.valid) \x7b\n            console.log(\x27Form submitted:\x27, form.value);\n          \x7d else \x7b\n            console.log(\x27Form validation failed.\x27);\n          \x7d\n        \x7d\n      \x7d\n    "

/-- generateMenuHTMLContent (createproj.ts lines 285-306): one link per
component, label falling back from menuName to name by JS truthiness. -/
def generateMenuHTMLContent (components : List Component) (menuType : String) (useBootstrap : Bool) : String :=
  let menuClass :=
    if useBootstrap then
      (if menuType == "vertical" then "nav flex-column" else "nav nav-pills")
    else
      (if menuType == "vertical" then "custom-vertical-menu" else "custom-horizontal-menu")
  let menuItems := String.join (components.map (fun c =>
    "<a class=\"nav-link\" routerLink=\"/" ++ jsToLowerCase c.name ++ "\">" ++
    jsOrElse c.menuName c.name ++ "</a>"))
  "<nav class=\"" ++ menuClass ++ "\">" ++ menuItems ++ "</nav>"

/-- The footer contribution (createproj.ts line 86): JS string truthiness,
so an absent or empty footer text yields the empty string, never an empty
footer element. -/
def footerHtmlOf (footerContent : Option String) : String :=
  match footerContent with
  | none => ""
  | some t => if t == "" then "" else "<footer>" ++ t ++ "</footer>"

/-- The shell page template written to app.component.html
(createproj.ts lines 87-94): navigation, router placeholder, footer. -/
def appComponentHtml (menuHtml : String) (footerHtml : String) : String :=
  ("\n        ") ++ menuHtml ++
  ("\n        <router-outlet></router-outlet>\n        ") ++ footerHtml ++
  ("\n      ")

/-- The shell markup of a specification (createproj.ts lines 85-94). -/
def shellOf (spec : OpenAPISpecification) (useBootstrap : Bool) : String :=
  appComponentHtml (generateMenuHTMLContent spec.components spec.menuType useBootstrap)
    (footerHtmlOf spec.footerContent)

/-- One generated virtual file: a relative path and its full text content. -/
structure Artifact where
  path : String
  content : String
deriving DecidableEq

/-- The three per-component artifacts of the ts-morph flow
(createproj.ts lines 59-82). -/
def componentArtifacts (projectName : String) (useBootstrap : Bool) (columnLayout : Nat) (c : Component) : List Artifact :=
  [ { path := projectName ++ "/src/app/" ++ jsToLowerCase c.name ++ "/" ++ jsToLowerCase c.name ++ ".component.ts",
      content := generateComponentTSContent c },
    { path := projectName ++ "/src/app/" ++ jsToLowerCase c.name ++ "/" ++ jsToLowerCase c.name ++ ".component.html",
      content := generateComponentHTMLContent c useBootstrap columnLayout },
    { path := projectName ++ "/src/app/" ++ jsToLowerCase c.name ++ "/" ++ jsToLowerCase c.name ++ ".component.css",
      content := "" } ]

/-- The full artifact set of one run of generateAngularProjectWithTSMorph
(createproj.ts lines 28-99), in source generation order.  The routing module
content is computed before any file is written (lines 52-56), so an empty
component list aborts the whole run with no artifact delivered (none). -/
def generateArtifacts (spec : OpenAPISpecification) (useBootstrap : Bool) (columnLayout : Nat) : Option (List Artifact) :=
  match generateAppRoutingModuleContent spec.components with
  | none => none
  | some routing =>
    some ([ { path := spec.projectName ++ "/src/app/app.module.ts", content := "" },
            { path := spec.projectName ++ "/src/app/app-routing.module.ts", content := routing } ] ++
      (spec.components.map (componentArtifacts spec.projectName useBootstrap columnLayout)).flatten ++
      [ { path := spec.projectName ++ "/src/app/app.component.html",
          content := shellOf spec useBootstrap } ])

/-- The bootstrap column class of the reactive-forms generator
(src/unnamed/part_001, line 140).  The prompting flow only supplies
columnLayout values 2, 3 and 4, where JS and natural division of 12 agree. -/
def columnClassOf (useBootstrap : Bool) (columnLayout : Nat) : String :=
  if useBootstrap then "col-md-" ++ toString (12 / columnLayout)
  else "custom-col-" ++ toString columnLayout

/-- One rendered field of the reactive-forms generator
(src/unnamed/part_001, lines 142-147). -/
def reactiveFieldHtml (columnClass : String) (f : Field) : String :=
  "<div class=\"" ++ columnClass ++ "\">" ++
  ("<label for=\"" ++ f.name ++ "\">" ++ capitalize f.name ++ "</label>") ++ "\n" ++
  ("<input id=\"" ++ f.name ++ "\" formControlName=\"" ++ f.name ++ "\" type=\"text\" class=\"form-control\" />") ++ "\n" ++
  ("<div *ngIf=\"form.controls[\x27" ++ f.name ++ "\x27].errors\" class=\"text-danger\">Invalid " ++ f.name ++ "</div>") ++
  "</div>"

/-- One rendered button of the reactive-forms generator
(src/unnamed/part_001, line 151). -/
def buttonHtml (button : String) : String :=
  "<button type=\"button\" class=\"btn btn-primary\">" ++ button ++ "</button>"

/-- The button section of the reactive-forms generator
(src/unnamed/part_001, lines 150-152): one element per declared label,
joined with a newline; an empty declaration list yields the empty string. -/
def buttonsHtmlOf (c : Component) : String :=
  String.intercalate ("\n") (c.buttons.map buttonHtml)

/-- generateComponentHTML (src/unnamed/part_001, lines 139-163). -/
def generateComponentHTML (c : Component) (columnLayout : Nat) (useBootstrap : Bool) : String :=
  ("\n<div class=\"container\">\n  <form [formGroup]=\"form\" (ngSubmit)=\"onSubmit()\" class=\"row\">\n    " ++
   String.intercalate ("\n") (c.fields.map (reactiveFieldHtml (columnClassOf useBootstrap columnLayout))) ++
   "\n    <div class=\"w-100\"></div>\n    ") ++
  buttonsHtmlOf c ++
  ("\n  </form>\n</div>\n  ")

/-- One observable side effect of the reactive-forms orchestrator: an
external tool invocation or a file write (identified by its path). -/
inductive Event where
  | exec : String → Event
  | write : String → Event
deriving DecidableEq

/-- The per-component side effects of the reactive-forms orchestrator
(src/unnamed/part_001, lines 54-120): scaffold the component, save the
TypeScript file (line 115), write the markup file (line 119). -/
def componentEvents (projectName : String) (c : Component) : List Event :=
  [ Event.exec ("ng generate component " ++ c.name),
    Event.write (projectName ++ "/src/app/" ++ c.name ++ "/" ++ c.name ++ ".component.ts"),
    Event.write (projectName ++ "/src/app/" ++ c.name ++ "/" ++ c.name ++ ".component.html") ]

/-- The ordered side-effect trace of one run of the reactive-forms
orchestrator generateAngularProjectWithTSMorph (src/unnamed/part_001,
lines 31-123): project scaffold, optional bootstrap install and
angular.json rewrite, then the per-component events in input order. -/
def runEvents (spec : OpenAPISpecification) (useBootstrap : Bool) : List Event :=
  [Event.exec ("npx @angular/cli new " ++ spec.projectName ++ " --defaults")] ++
  (if useBootstrap then
    [Event.exec ("npm install bootstrap"), Event.write (spec.projectName ++ "/angular.json")]
   else []) ++
  (spec.components.map (componentEvents spec.projectName)).flatten

/-- The write paths of a trace, in order. -/
def writesOf : List Event → List String
  | [] => []
  | Event.exec _ :: rest => writesOf rest
  | Event.write p :: rest => p :: writesOf rest

/-- The writes actually performed when external invocations may fail:
execution proceeds in trace order and stops at the first invocation the
shell collaborator rejects (a failed execSync throws and aborts the run). -/
def deliveredWrites (execOk : String → Bool) : List Event → List String
  | [] => []
  | Event.exec cmd :: rest => if execOk cmd then deliveredWrites execOk rest else []
  | Event.write p :: rest => p :: deliveredWrites execOk rest

/-- Naive scan: does the character sequence pat occur inside s. -/
def containsSeq (pat : List Char) : List Char → Bool
  | [] => pat.isEmpty
  | c :: rest => pat.isPrefixOf (c :: rest) || containsSeq pat rest

/-- Does the string pat occur as a contiguous substring of s. -/
def strContains (pat : String) (s : String) : Bool :=
  containsSeq pat.data s.data

/-- The username field of the sample specification (src/spec.json): flat
required flag plus a structured bundle with minLength 3 and maxLength 10. -/
def usernameField : Field :=
  { name := "username", type := "textbox", required := true,
    validationMessage := some ("Username is required."),
    validations := some { required := some true, minLength := some 3, maxLength := some 10 } }

/-- The age field of the sample specification: required only through the
structured bundle, with a numeric range; the flat required flag is absent. -/
def ageField : Field :=
  { name := "age", type := "textbox",
    validations := some { required := some true, range := some (18, 100) } }

/-- A checkbox field with the flat required flag set. -/
def subscribeField : Field :=
  { name := "subscribe", type := "checkbox", required := true }

/-- The interests checkboxlist field of the sample specification. -/
def interestsField : Field :=
  { name := "interests", type := "checkboxlist",
    options := ["Sports", "Music", "Travel"] }

/-- The description field of the About component (unrecognized type). -/
def descriptionField : Field :=
  { name := "description", type := "string" }

/-- The Register component of the sample specification (condensed). -/
def registerComponent : Component :=
  { name := "Register", menuName := some ("Users"),
    fields := [usernameField, ageField, interestsField],
    buttons := ["Submit", "Reset"] }

/-- The About component of the sample specification: no declared buttons. -/
def aboutComponent : Component :=
  { name := "About", menuName := some ("About"),
    fields := [descriptionField], buttons := [] }

/-- The sample specification itself. -/
def demoSpec : OpenAPISpecification :=
  { projectName := "my-angular-app",
    components := [registerComponent, aboutComponent],
    menuType := "horizontal",
    footerContent := some ("2024 MyCompany. All rights reserved.") }

/-- A specification with an empty component list. -/
def emptySpec : OpenAPISpecification :=
  { projectName := "empty-app", components := [] }

/-- A component whose name is not capitalized. -/
def lowerComponent : Component :=
  { name := "register", fields := [usernameField] }

/-- Shell-collaborator behaviour that rejects exactly the scaffold command
for the About component and accepts every other invocation. -/
def failAboutGen : String → Bool :=
  fun cmd => !(cmd == "ng generate component About")

theorem sublist_ite_singleton (cond : Bool) (x : Directive) :
    List.Sublist (if cond then [x] else []) [x] := by
  cases cond
  · exact List.nil_sublist _
  · exact List.Sublist.refl _

/-- C2: for every field carrying a structured validation bundle, the compiled
directives appear in the order required, minLength, maxLength, pattern,
range-min, range-max (each present only when its sub-field is truthy), and
the bundle (required true, minLength 3, maxLength 10) compiles to exactly
(Required, MinLength 3, MaxLength 10). -/
theorem C2_directive_order (f : Field) (v : Validations) (hv : f.validations = some v) :
    List.Sublist (compileValidations f.validations)
      [Directive.required,
       Directive.minLength (v.minLength.getD 0),
       Directive.maxLength (v.maxLength.getD 0),
       Directive.pattern (v.regex.getD ("")),
       Directive.min ((v.range.getD (0, 0)).1),
       Directive.max ((v.range.getD (0, 0)).2)] ∧
    compileValidations (some { required := some true, minLength := some 3, maxLength := some 10 }) =
      [Directive.required, Directive.minLength 3, Directive.maxLength 10] := by
  refine ⟨?_, by decide⟩
  rw [hv]
  show List.Sublist _
    ([Directive.required] ++ [Directive.minLength (v.minLength.getD 0)] ++
     [Directive.maxLength (v.maxLength.getD 0)] ++ [Directive.pattern (v.regex.getD (""))] ++
     [Directive.min ((v.range.getD (0, 0)).1), Directive.max ((v.range.getD (0, 0)).2)])
  unfold compileValidations
  refine List.Sublist.append (List.Sublist.append (List.Sublist.append (List.Sublist.append
    (sublist_ite_singleton _ _) (sublist_ite_singleton _ _)) (sublist_ite_singleton _ _))
    (sublist_ite_singleton _ _)) ?_
  rcases hr : v.range with _ | ⟨a, b⟩
  · show List.Sublist (match (some v).bind Validations.range with
      | some (a, b) => [Directive.min a, Directive.max b]
      | none => []) _
    have : (some v).bind Validations.range = none := by simp [hr]
    rw [this]
    exact List.nil_sublist _
  · show List.Sublist (match (some v).bind Validations.range with
      | some (a, b) => [Directive.min a, Directive.max b]
      | none => []) _
    have : (some v).bind Validations.range = some (a, b) := by simp [hr]
    rw [this]
    exact List.Sublist.refl _

/-- C2 witness: the username bundle of the sample specification compiles
to a sublist of the canonical ordered directive list. -/
theorem C2_directive_order_witness :
    List.Sublist (compileValidations usernameField.validations)
      [Directive.required, Directive.minLength 3, Directive.maxLength 10,
       Directive.pattern (""), Directive.min 0, Directive.max 0] :=
  (C2_directive_order usernameField
    { required := some true, minLength := some 3, maxLength := some 10 } rfl).1

/-- C9: a structured bundle declaring minLength 0 or maxLength 0 yields no
MinLength or MaxLength directive, because presence of a bound is tested by
numeric truthiness and a zero bound is falsy. -/
theorem C9_zero_bound_drop (v : Validations) :
    (v.minLength = some 0 → ∀ n, Directive.minLength n ∉ compileValidations (some v)) ∧
    (v.maxLength = some 0 → ∀ n, Directive.maxLength n ∉ compileValidations (some v)) := by
  rcases v with ⟨r, mn, mx, rg, rng, d⟩
  constructor
  · intro hmin n
    change mn = some 0 at hmin
    subst hmin
    simp only [compileValidations, Option.some_bind, List.mem_append, not_or]
    refine ⟨⟨⟨⟨?_, ?_⟩, ?_⟩, ?_⟩, ?_⟩
    · split_ifs <;> simp
    · simp [numTruthy]
    · split_ifs <;> simp
    · split_ifs <;> simp
    · rcases rng with _ | ⟨a, b⟩ <;> simp
  · intro hmax n
    change mx = some 0 at hmax
    subst hmax
    simp only [compileValidations, Option.some_bind, List.mem_append, not_or]
    refine ⟨⟨⟨⟨?_, ?_⟩, ?_⟩, ?_⟩, ?_⟩
    · split_ifs <;> simp
    · split_ifs <;> simp
    · simp [numTruthy]
    · split_ifs <;> simp
    · rcases rng with _ | ⟨a, b⟩ <;> simp

/-- C9 witness: a bundle with both bounds zero compiles with no MinLength 5
and no MaxLength 5 directive. -/
theorem C9_zero_bound_drop_witness :
    Directive.minLength 5 ∉
      compileValidations (some { minLength := some 0, maxLength := some 0 }) ∧
    Directive.maxLength 5 ∉
      compileValidations (some { minLength := some 0, maxLength := some 0 }) :=
  ⟨(C9_zero_bound_drop { minLength := some 0, maxLength := some 0 }).1 rfl 5,
   (C9_zero_bound_drop { minLength := some 0, maxLength := some 0 }).2 rfl 5⟩

/-- C10: the generated form model has exactly one control per declared field,
in declaration order, keyed by the field name with its compiled validator
chain; each control entry is seeded with null; a field with no validation
information contributes an empty validator list; and the printed
generateValidationRules text is the comma-join of these entries. -/
theorem C10_form_controls (c : Component) :
    (formControls c).length = c.fields.length ∧
    (formControls c).map Prod.fst = c.fields.map Field.name ∧
    (∀ i (h1 : i < c.fields.length) (h2 : i < (formControls c).length),
      (formControls c)[i] = ((c.fields)[i].name, compileValidations (c.fields)[i].validations)) ∧
    (∀ f : Field, f.validations = none → compileValidations f.validations = []) ∧
    (∀ f : Field, controlEntryStr (f.name, compileValidations f.validations) =
      f.name ++ ": [null, [" ++
      String.intercalate (", ") ((compileValidations f.validations).map directiveStr) ++ "]]") ∧
    generateValidationRules c = String.intercalate (", ") ((formControls c).map controlEntryStr) := by
  refine ⟨?_, ?_, ?_, ?_, ?_, ?_⟩
  · simp [formControls]
  · simp [formControls]
  · intro i h1 h2
    simp [formControls]
  · intro f hf
    rw [hf]
    rfl
  · intro f
    rfl
  · unfold generateValidationRules formControls
    rw [List.map_map]
    congr 1

/-- C10 witness: the controls of the Register component are the three fields
in declaration order. -/
theorem C10_form_controls_witness :
    (formControls registerComponent).length = registerComponent.fields.length ∧
    (formControls registerComponent)[0] =
      ((registerComponent.fields)[0].name,
        compileValidations (registerComponent.fields)[0].validations) := by
  refine ⟨(C10_form_controls registerComponent).1, ?_⟩
  exact (C10_form_controls registerComponent).2.2.1 0 (by decide) (by decide)

/-- C1 counterexample: for the single component named "register" the
generated route table pairs path "register" with the identifier
"registerComponent" — the raw name followed by "Component" — which differs
from the class-form identifier "RegisterComponent" the claim requires. -/
theorem C1_classform_counterexample :
    routeEntries [lowerComponent] =
      some [ { path := "register", component := some ("registerComponent") },
             { path := "", redirectTo := some ("/register"), pathMatchFull := true },
             { path := "**", redirectTo := some ("/register") } ] ∧
    capitalize ("register") ++ "Component" = "RegisterComponent" ∧
    ("registerComponent" : String) ≠ "RegisterComponent" := by
  refine ⟨?_, ?_, ?_⟩ <;> decide

/-- C1 (amended): for every non-empty component list the routing table has
exactly length + 2 entries: one per component in input order with path the
lowercased name and component identifier the raw name followed by
"Component", then an empty-path entry and a wildcard entry both redirecting
to the lowercased name of the first component. -/
theorem C1_routing_shape (c0 : Component) (rest : List Component) :
    ∃ l : List RouteEntry, routeEntries (c0 :: rest) = some l ∧
      l.length = (c0 :: rest).length + 2 ∧
      (∀ i (h1 : i < (c0 :: rest).length) (h2 : i < l.length),
        l[i] = { path := jsToLowerCase ((c0 :: rest)[i]).name,
                 component := some (((c0 :: rest)[i]).name ++ "Component") }) ∧
      l.drop (c0 :: rest).length =
        [ { path := "", redirectTo := some ("/" ++ jsToLowerCase c0.name), pathMatchFull := true },
          { path := "**", redirectTo := some ("/" ++ jsToLowerCase c0.name) } ] := by
  refine ⟨_, rfl, ?_, ?_, ?_⟩
  · simp
  · intro i h1 h2
    rw [List.getElem_append_left (by simpa using h1)]
    rw [List.getElem_map]
  · have hl : ((c0 :: rest).map (fun c =>
        ({ path := jsToLowerCase c.name,
           component := some (c.name ++ "Component") } : RouteEntry))).length =
        (c0 :: rest).length := List.length_map _ _
    rw [← hl, List.drop_left]

/-- C1 witness: the sample two-component list yields a four-entry table. -/
theorem C1_routing_shape_witness :
    ∃ l : List RouteEntry,
      routeEntries [registerComponent, aboutComponent] = some l ∧ l.length = 4 ∧
      l[0]? = some { path := "register", component := some ("RegisterComponent") } := by
  obtain ⟨l, h1, h2, h3, h4⟩ := C1_routing_shape registerComponent [aboutComponent]
  refine ⟨l, h1, h2, ?_⟩
  have := h3 0 (by decide) (by rw [h2]; decide)
  rw [List.getElem?_eq_getElem (by rw [h2]; decide), this]
  rfl

/-- C6: the shell markup is the navigation fragment, then the router
placeholder, then the footer contribution; the footer contribution is the
footer element exactly for a supplied non-empty footer text, is the empty
string when the text is absent, and is never an empty footer element. -/
theorem C6_shell_assembly (spec : OpenAPISpecification) (useBootstrap : Bool) :
    shellOf spec useBootstrap =
      ("\n        ") ++ generateMenuHTMLContent spec.components spec.menuType useBootstrap ++
      ("\n        <router-outlet></router-outlet>\n        ") ++
      footerHtmlOf spec.footerContent ++ ("\n      ") ∧
    (spec.footerContent = none → footerHtmlOf spec.footerContent = "") ∧
    (∀ t, spec.footerContent = some t → t ≠ "" →
      footerHtmlOf spec.footerContent = "<footer>" ++ t ++ "</footer>") ∧
    footerHtmlOf spec.footerContent ≠ "<footer></footer>" := by
  refine ⟨rfl, ?_, ?_, ?_⟩
  · intro h
    rw [h]
    rfl
  · intro t h ht
    rw [h]
    simp only [footerHtmlOf]
    rw [if_neg (by simpa using ht)]
  · rcases hf : spec.footerContent with _ | t
    · simp [footerHtmlOf]
    · by_cases ht : t = ""
      · simp [footerHtmlOf, ht]
      · simp only [footerHtmlOf]
        rw [if_neg (by simpa using ht)]
        intro he
        have hlen := congrArg String.length he
        rw [String.length_append, String.length_append] at hlen
        have e1 : ("<footer>").length = 8 := rfl
        have e2 : ("</footer>").length = 9 := rfl
        have e3 : ("<footer></footer>").length = 17 := rfl
        rw [e1, e2, e3] at hlen
        have ht0 : t.length = 0 := by omega
        exact ht (String.ext (List.length_eq_zero.mp ht0))

/-- C6 witness: with the sample footer text the shell decomposition holds and
the footer contribution is a non-empty footer element; with no footer text
the contribution is the empty string. -/
theorem C6_shell_assembly_witness :
    footerHtmlOf demoSpec.footerContent =
      "<footer>" ++ "2024 MyCompany. All rights reserved." ++ "</footer>" ∧
    footerHtmlOf emptySpec.footerContent = "" :=
  ⟨(C6_shell_assembly demoSpec true).2.2.1 ("2024 MyCompany. All rights reserved.") rfl
    (by decide),
   (C6_shell_assembly emptySpec true).2.1 rfl⟩

/-- C3: the generation engine is deterministic: two runs on the identical
specification, styled-grid flag and column count produce equal artifact sets
(routing module, component module text, component markup, menu and shell all
included), and likewise for the reactive-forms markup generator and the
form-model compiler. -/
theorem C3_round_trip (spec : OpenAPISpecification) (useBootstrap : Bool) (columnLayout : Nat)
    (c : Component)
    (r1 r2 : Option (List Artifact)) (m1 m2 : String) (g1 g2 : String)
    (h1 : r1 = generateArtifacts spec useBootstrap columnLayout)
    (h2 : r2 = generateArtifacts spec useBootstrap columnLayout)
    (h3 : m1 = generateComponentHTML c columnLayout useBootstrap)
    (h4 : m2 = generateComponentHTML c columnLayout useBootstrap)
    (h5 : g1 = generateValidationRules c)
    (h6 : g2 = generateValidationRules c) :
    r1 = r2 ∧ m1 = m2 ∧ g1 = g2 := by
  subst h1 h2 h3 h4 h5 h6
  exact ⟨rfl, rfl, rfl⟩

/-- C3 witness: two runs on the sample specification coincide. -/
theorem C3_round_trip_witness :
    generateArtifacts demoSpec true 2 = generateArtifacts demoSpec true 2 ∧
    generateComponentHTML registerComponent 2 true = generateComponentHTML registerComponent 2 true ∧
    generateValidationRules registerComponent = generateValidationRules registerComponent :=
  C3_round_trip demoSpec true 2 registerComponent _ _ _ _ _ _ rfl rfl rfl rfl rfl rfl

/-- C4 counterexample: the age field is required through the structured
bundle alone and its rendered fragment carries no "Age *" marker; a checkbox
field with the flat required flag carries no "Subscribe *" marker; the
reactive-forms renderer emits no "Username *" marker even for a flat-required
field.  By contrast a flat-required textbox does carry "Username *". -/
theorem C4_marker_counterexample :
    strContains ("Age *") (fieldFragment ageField) = false ∧
    strContains ("Subscribe *") (fieldFragment subscribeField) = false ∧
    strContains ("Username *") (generateComponentHTML
      { name := "Register",
        fields := [{ name := "username", type := "textbox", required := true }] } 2 true) = false ∧
    strContains ("Username *") (fieldFragment usernameField) = true := by
  refine ⟨?_, ?_, ?_, ?_⟩ <;> decide

/-- C4 (amended): every rendered control is wrapped in the uniform
form-group container; the trailing required marker is driven solely by the
flat required flag — the label of the textbox, textarea, dropdown,
checkboxlist and radiobuttonlist arms is followed exactly by
requiredMarkerOf, which is " *" iff the flat flag is set; the structured
bundle plays no role in rendering; the checkbox and radiobutton arms place
the label after the input with no marker position; an unrecognized type
falls back to the textbox template; and the reactive-forms renderer ignores
the required flag entirely. -/
theorem C4_marker_wrapper (f : Field) :
    fieldFragment f = "<div class=\"form-group\">" ++ controlHTML f ++ "</div>" ∧
    requiredMarkerOf f = (if f.required then " *" else "") ∧
    (∀ vo : Option Validations, controlHTML { f with validations := vo } = controlHTML f) ∧
    (f.type = "textbox" →
      ∃ pre post, controlHTML f = pre ++ (toTitleCase f.name ++ requiredMarkerOf f) ++ post) ∧
    (f.type = "textarea" →
      ∃ pre post, controlHTML f = pre ++ (toTitleCase f.name ++ requiredMarkerOf f) ++ post) ∧
    (f.type = "dropdown" →
      ∃ pre post, controlHTML f = pre ++ (toTitleCase f.name ++ requiredMarkerOf f) ++ post) ∧
    (f.type = "checkboxlist" →
      ∃ pre post, controlHTML f = pre ++ (toTitleCase f.name ++ requiredMarkerOf f) ++ post) ∧
    (f.type = "radiobuttonlist" →
      ∃ pre post, controlHTML f = pre ++ (toTitleCase f.name ++ requiredMarkerOf f) ++ post) ∧
    (f.type ∉ ["textbox", "textarea", "dropdown", "checkbox", "checkboxlist",
               "radiobutton", "radiobuttonlist"] →
      controlHTML f = textboxControl f) ∧
    (f.type = "checkbox" →
      ∃ pre, controlHTML f =
        pre ++ (toTitleCase f.name ++ ("\n                </label>\n              "))) ∧
    (f.type = "radiobutton" →
      ∃ pre, controlHTML f =
        pre ++ (toTitleCase f.name ++ ("\n                </label>\n              "))) ∧
    (∀ (b : Bool) (cc : String),
      reactiveFieldHtml cc { f with required := b } = reactiveFieldHtml cc f) := by
  refine ⟨rfl, rfl, fun vo => rfl, ?_, ?_, ?_, ?_, ?_, ?_, ?_, ?_, fun b cc => rfl⟩
  · intro h
    have hc : controlHTML f = textboxControl f := by simp [controlHTML, h]
    exact ⟨_, _, hc⟩
  · intro h
    have hc : controlHTML f = textareaControl f := by simp [controlHTML, h]
    exact ⟨_, _, hc⟩
  · intro h
    have hc : controlHTML f = dropdownControl f := by simp [controlHTML, h]
    exact ⟨_, _, hc⟩
  · intro h
    have hc : controlHTML f = checkboxlistControl f := by simp [controlHTML, h]
    exact ⟨_, _, hc⟩
  · intro h
    have hc : controlHTML f = radiobuttonlistControl f := by simp [controlHTML, h]
    exact ⟨_, _, hc⟩
  · intro h
    simp only [List.mem_cons, List.mem_singleton, List.not_mem_nil, or_false, not_or] at h
    obtain ⟨h1, h2, h3, h4, h5, h6, h7⟩ := h
    simp [controlHTML, h1, h2, h3, h4, h5, h6, h7]
  · intro h
    have hc : controlHTML f = checkboxControl f := by simp [controlHTML, h]
    exact ⟨_, hc⟩
  · intro h
    have hc : controlHTML f = radiobuttonControl f := by simp [controlHTML, h]
    exact ⟨_, hc⟩

/-- C4 witness: the flat-required username textbox renders its label followed
by the marker, and its fragment sits in the uniform container. -/
theorem C4_marker_wrapper_witness :
    (∃ pre post, controlHTML usernameField =
      pre ++ (toTitleCase usernameField.name ++ requiredMarkerOf usernameField) ++ post) ∧
    fieldFragment usernameField =
      "<div class=\"form-group\">" ++ controlHTML usernameField ++ "</div>" := by
  have h := C4_marker_wrapper usernameField
  exact ⟨h.2.2.2.1 rfl, h.1⟩

/-- C5 counterexample: the About component declares no buttons and the
reactive-forms markup for it contains no button element at all, contradicting
the defaulted single Submit action; moreover the template-driven generator
ignores the declared button list (it never renders Register's "Reset"). -/
theorem C5_buttons_counterexample :
    aboutComponent.buttons = [] ∧
    buttonsHtmlOf aboutComponent = "" ∧
    strContains ("<button") (generateComponentHTML aboutComponent 2 true) = false ∧
    registerComponent.buttons = ["Submit", "Reset"] ∧
    strContains ("Reset") (generateComponentHTMLContent registerComponent true 2) = false := by
  refine ⟨rfl, ?_, ?_, rfl, ?_⟩ <;> decide

/-- C5 (amended): the reactive-forms markup ends with the button section,
which is exactly one button element per declared label in declaration order,
and is the empty string — no default Submit — when no buttons are declared;
the template-driven generator instead always ends with one fixed Submit
button regardless of the declared labels. -/
theorem C5_buttons (c : Component) (columnLayout : Nat) (useBootstrap : Bool) :
    (∃ pre, generateComponentHTML c columnLayout useBootstrap =
      pre ++ buttonsHtmlOf c ++ ("\n  </form>\n</div>\n  ")) ∧
    buttonsHtmlOf c = String.intercalate ("\n") (c.buttons.map buttonHtml) ∧
    (c.buttons.map buttonHtml).length = c.buttons.length ∧
    (∀ i (h1 : i < c.buttons.length) (h2 : i < (c.buttons.map buttonHtml).length),
      (c.buttons.map buttonHtml)[i] =
        "<button type=\"button\" class=\"btn btn-primary\">" ++ c.buttons[i] ++ "</button>") ∧
    (c.buttons = [] → buttonsHtmlOf c = "") ∧
    (∃ pre, generateComponentHTMLContent c useBootstrap columnLayout =
      pre ++ ("\n        <button type=\"submit\" class=\"btn btn-primary\">Submit</button>\n      </form>\n    ")) := by
  refine ⟨⟨_, rfl⟩, rfl, by simp, ?_, ?_, ⟨_, rfl⟩⟩
  · intro i h1 h2
    rw [List.getElem_map]
    rfl
  · intro h
    simp only [buttonsHtmlOf, h, List.map_nil]
    rfl

/-- C5 witness: the Register component's two declared buttons map to two
button elements, the first rendering "Submit". -/
theorem C5_buttons_witness :
    (registerComponent.buttons.map buttonHtml).length = registerComponent.buttons.length ∧
    (registerComponent.buttons.map buttonHtml).get ⟨0, by decide⟩ =
      "<button type=\"button\" class=\"btn btn-primary\">" ++
      registerComponent.buttons.get ⟨0, by decide⟩ ++ "</button>" := by
  have h := C5_buttons registerComponent 2 true
  exact ⟨h.2.2.1, h.2.2.2.1 0 (by decide) (by decide)⟩

/-- C7: a checkboxlist field renders as its label followed by one toggle per
declared option — in declaration order, joined with br, every toggle carrying
the field's name as its name attribute — and the checkboxlist arm emits no
required-error block: the sample interests fragment contains no error text
whether or not the required flag is set. -/
theorem C7_checkboxlist (f : Field) (h : f.type = "checkboxlist") :
    controlHTML f =
      ("\n                <label>") ++
      (toTitleCase f.name ++ requiredMarkerOf f) ++
      (("</label>\n                <div>\n                  ") ++
       String.intercalate ("<br>") (f.options.map (cblToggle f.name)) ++
       ("\n                </div>\n              ")) ∧
    (f.options.map (cblToggle f.name)).length = f.options.length ∧
    (∀ i (h1 : i < f.options.length) (h2 : i < (f.options.map (cblToggle f.name)).length),
      (f.options.map (cblToggle f.name))[i] = cblToggle f.name f.options[i]) ∧
    (∀ option, cblToggle f.name option =
      "<label><input type=\"checkbox\" name=\"" ++ f.name ++ "\" value=\"" ++ option ++
      "\" [ngModel]=\"" ++ f.name ++ "\"/> " ++ option ++ "</label>") ∧
    strContains ("errors") (fieldFragment { interestsField with required := true }) = false ∧
    strContains ("errors") (fieldFragment { interestsField with required := false }) = false := by
  refine ⟨?_, by simp, ?_, fun option => rfl, by decide, by decide⟩
  · simp [controlHTML, h, checkboxlistControl]
  · intro i h1 h2
    rw [List.getElem_map]

/-- C7 witness: the interests field declares three options and renders three
toggles, the first carrying the field's name and the "Sports" option. -/
theorem C7_checkboxlist_witness :
    (interestsField.options.map (cblToggle interestsField.name)).length =
      interestsField.options.length ∧
    (interestsField.options.map (cblToggle interestsField.name)).get ⟨0, by decide⟩ =
      cblToggle interestsField.name (interestsField.options.get ⟨0, by decide⟩) := by
  have h := C7_checkboxlist interestsField rfl
  exact ⟨h.2.1, h.2.2.1 0 (by decide) (by decide)⟩

/-- C8 counterexample: running the reactive-forms orchestrator on the sample
specification with the shell collaborator failing exactly at the scaffold of
the About component delivers the Register component's two artifacts — a
non-empty, strictly partial artifact set. -/
theorem C8_partial_counterexample :
    deliveredWrites failAboutGen (runEvents demoSpec false) =
      ["my-angular-app/src/app/Register/Register.component.ts",
       "my-angular-app/src/app/Register/Register.component.html"] ∧
    writesOf (runEvents demoSpec false) =
      ["my-angular-app/src/app/Register/Register.component.ts",
       "my-angular-app/src/app/Register/Register.component.html",
       "my-angular-app/src/app/About/About.component.ts",
       "my-angular-app/src/app/About/About.component.html"] ∧
    deliveredWrites failAboutGen (runEvents demoSpec false) ≠ [] ∧
    deliveredWrites failAboutGen (runEvents demoSpec false) ≠
      writesOf (runEvents demoSpec false) := by
  refine ⟨?_, ?_, ?_, ?_⟩ <;> decide

theorem deliveredWrites_prefix_eq (execOk : String → Bool) (events : List Event) :
    ∃ t, deliveredWrites execOk events ++ t = writesOf events := by
  induction events with
  | nil => exact ⟨[], rfl⟩
  | cons e rest ih =>
    cases e with
    | exec cmd =>
      by_cases h : execOk cmd = true
      · obtain ⟨t, ht⟩ := ih
        exact ⟨t, by simp [deliveredWrites, writesOf, h, ht]⟩
      · exact ⟨writesOf rest, by simp [deliveredWrites, writesOf, h]⟩
    | write p =>
      obtain ⟨t, ht⟩ := ih
      exact ⟨t, by simp [deliveredWrites, writesOf, ht]⟩

/-- C8 (amended): fatal conditions abort at their point of occurrence, not
atomically.  In the ts-morph flow an empty component list aborts before any
artifact exists, so nothing is delivered; but the reactive-forms
orchestrator interleaves writes with external invocations, so the writes
delivered up to the first failing invocation form a prefix of the full write
sequence — possibly a non-empty strict partial set, as the counterexample
shows. -/
theorem C8_abort_semantics (spec : OpenAPISpecification) (useBootstrap : Bool)
    (columnLayout : Nat) (execOk : String → Bool) :
    (spec.components = [] → generateArtifacts spec useBootstrap columnLayout = none) ∧
    (∃ t, deliveredWrites execOk (runEvents spec useBootstrap) ++ t =
      writesOf (runEvents spec useBootstrap)) := by
  constructor
  · intro h
    simp [generateArtifacts, h, generateAppRoutingModuleContent]
  · exact deliveredWrites_prefix_eq _ _

/-- C8 witness: the empty specification yields no artifact set, and the
partially delivered writes of the sample run are a prefix of the full write
sequence. -/
theorem C8_abort_semantics_witness :
    generateArtifacts emptySpec true 2 = none ∧
    (∃ t, deliveredWrites failAboutGen (runEvents demoSpec false) ++ t =
      writesOf (runEvents demoSpec false)) :=
  ⟨(C8_abort_semantics emptySpec true 2 (fun _ => true)).1 rfl,
   (C8_abort_semantics demoSpec false 2 failAboutGen).2⟩

end Gen
